import Mathlib

/-!
# DemoWebShop E2E suite: `playwright.config.js`

A shallow embedding of the default export of `playwright.config.js` and the
properties of the run configuration it builds.

The module reads two things: `process.env.CI` (lines 25 and 26) and the object
imported from `./config/config.js` (lines 28, 35, 36, 44, 45, 46).  It also
spreads `devices['Desktop Chrome']`, a table exported by `@playwright/test`
(line 60).  All three are inputs of the embedding.

`process.env` is read after `dotenv.config` (line 16) has run, so the
environment of the embedding is `process.env` as it stands when the object
literal of lines 18-65 is evaluated.
-/

namespace PlaywrightConfig

/-! ## JavaScript values -/

/-- JavaScript values that flow through the configuration unchanged.
Numbers are the integral ones (millisecond counts, pixel sizes). -/
inductive JsValue where
  | undefined
  | null
  | boolean (b : Bool)
  | number (n : Int)
  | string (s : String)
  | array (items : List JsValue)
  | object (props : List (String × JsValue))

/-- An object literal: its own enumerable properties, in insertion order. -/
abbrev JsObject := List (String × JsValue)

/-- ECMAScript `ToBoolean`: `undefined`, `null`, `false`, `0` and `''` are
falsy, every other value is truthy. -/
def JsValue.toBoolean : JsValue → Bool
  | .undefined => false
  | .null => false
  | .boolean b => b
  | .number n => n != 0
  | .string s => s != ""
  | .array _ => true
  | .object _ => true

/-- The object `process.env`: a variable is absent (`none`) or bound to a
string. -/
abbrev ProcessEnv := String → Option String

/-- Property read `process.env[name]`: `undefined` for an absent variable,
the string otherwise. -/
def ProcessEnv.get (env : ProcessEnv) (name : String) : JsValue :=
  match env name with
  | none => .undefined
  | some s => .string s

/-- The table `devices` of `@playwright/test`: a device name is unknown
(`none`, read as `undefined`) or gives a descriptor object. -/
abbrev Devices := String → Option JsObject

/-- Object spread `{ ...v }`: the own properties of an object, nothing for
`undefined`. -/
def spread : Option JsObject → JsObject
  | none => []
  | some props => props

/-! ## The imported configuration object (`./config/config.js`) -/

/-- The object `config.browser`; a field the module does not define reads as
`undefined`. -/
structure BrowserSettings where
  timeout : JsValue
  headless : JsValue
  slowMo : JsValue

/-- The object `config.reporter`. -/
structure ReporterSettings where
  outputDir : JsValue
  reportTitle : JsValue

/-- The default export of `./config/config.js`, as far as
`playwright.config.js` reads it. -/
structure Config where
  baseUrl : JsValue
  browser : BrowserSettings
  reporter : ReporterSettings

/-! ## The produced record -/

/-- The literal `{ width: 1280, height: 800 }`. -/
structure Viewport where
  width : Nat
  height : Nat

/-- The object under the key `use` (lines 43-54). -/
structure UseOptions where
  baseURL : JsValue
  headless : JsValue
  slowMo : JsValue
  viewport : Viewport
  screenshot : String
  video : String
  trace : String
  actionTimeout : Nat
  navigationTimeout : Nat
  ignoreHTTPSErrors : Bool

/-- One entry of the `reporter` array: the tuple `[name, options]`, or the
one-element tuple `[name]` when `options` is `none`. -/
structure ReporterEntry where
  name : String
  options : Option JsObject

/-- One entry of the `projects` array. -/
structure Project where
  name : String
  use : JsObject

/-- The object literal handed to `defineConfig` (lines 18-65), field by
field in source order. -/
structure RunConfiguration where
  testDir : String
  testMatch : List String
  fullyParallel : Bool
  forbidOnly : Bool
  retries : Nat
  workers : Nat
  timeout : JsValue
  reporter : List ReporterEntry
  use : UseOptions
  projects : List Project
  outputDir : String

/-- The function `defineConfig` of `@playwright/test` called with a single
configuration: it hands its argument back. -/
def defineConfig (c : RunConfiguration) : RunConfiguration := c

/-- The default export of `playwright.config.js` (lines 18-65), as a function
of `process.env`, the `devices` table and the imported `config`. -/
def defaultExport (env : ProcessEnv) (devices : Devices) (config : Config) :
    RunConfiguration :=
  defineConfig {
    testDir := "./tests"
    testMatch := ["**/*.spec.js"]
    fullyParallel := false
    forbidOnly := !(!(env.get "CI").toBoolean)
    retries := if (env.get "CI").toBoolean then 1 else 0
    workers := 1
    timeout := config.browser.timeout
    reporter := [
      { name := "./utils/ExtentReporter.js"
        options := some [
          ("outputDir", config.reporter.outputDir),
          ("reportTitle", config.reporter.reportTitle)] },
      { name := "list", options := none }]
    use := {
      baseURL := config.baseUrl
      headless := config.browser.headless
      slowMo := config.browser.slowMo
      viewport := { width := 1280, height := 800 }
      screenshot := "only-on-failure"
      video := "retain-on-failure"
      trace := "on-first-retry"
      actionTimeout := 15000
      navigationTimeout := 30000
      ignoreHTTPSErrors := true }
    projects := [
      { name := "chromium"
        use := spread (devices "Desktop Chrome") }]
    outputDir := "test-results" }

/-! ## Sample inputs -/

/-- An environment without `CI`. -/
def envNoCI : ProcessEnv := fun _ => none

/-- An environment binding `CI` to the given string and nothing else. -/
def envCI (value : String) : ProcessEnv :=
  fun name => if name = "CI" then some value else none

/-- A `devices` table knowing only `Desktop Chrome`. -/
def sampleDevices : Devices := fun name =>
  if name = "Desktop Chrome" then
    some [("viewport", .object [("width", .number 1280), ("height", .number 720)]),
          ("defaultBrowserType", .string "chromium")]
  else none

/-- A configuration module as the test suite might ship it. -/
def sampleConfig : Config where
  baseUrl := .string "https://demowebshop.tricentis.com/ "
  browser := { timeout := .number 60000, headless := .boolean true, slowMo := .number 0 }
  reporter := { outputDir := .string "reports", reportTitle := .string "DemoWebShop" }

/-- An environment binding `CI` to `1` next to an unrelated variable. -/
def envCIAndHome : ProcessEnv := fun name =>
  if name = "CI" then some "1" else if name = "HOME" then some "/home/ci" else none

/-! ## Reading `process.env.CI` -/

theorem get_CI_of_absent (env : ProcessEnv) (h : env "CI" = none) :
    (env.get "CI").toBoolean = false := by
  simp [ProcessEnv.get, h, JsValue.toBoolean]

theorem get_CI_of_present (env : ProcessEnv) (s : String) (h : env "CI" = some s) :
    (env.get "CI").toBoolean = (s != "") := by
  simp [ProcessEnv.get, h, JsValue.toBoolean]

theorem forbidOnly_eq (env : ProcessEnv) (devices : Devices) (config : Config) :
    (defaultExport env devices config).forbidOnly = (env.get "CI").toBoolean := by
  simp [defaultExport, defineConfig]

theorem retries_eq (env : ProcessEnv) (devices : Devices) (config : Config) :
    (defaultExport env devices config).retries
      = if (env.get "CI").toBoolean then 1 else 0 := rfl

/-! ## Properties of the produced configuration -/

/-- C1: with `CI` unset the configuration has `forbidOnly = false` and
`retries = 0`; with `CI` set to a truthy value, that is any non-empty string,
it has `forbidOnly = true` and `retries = 1`. -/
theorem forbidOnly_retries_of_CI (env : ProcessEnv) (devices : Devices) (config : Config) :
    (env "CI" = none →
        (defaultExport env devices config).forbidOnly = false ∧
        (defaultExport env devices config).retries = 0) ∧
    (∀ s : String, env "CI" = some s → s ≠ "" →
        (defaultExport env devices config).forbidOnly = true ∧
        (defaultExport env devices config).retries = 1) := by
  refine ⟨fun h => ?_, fun s h hs => ?_⟩
  · rw [forbidOnly_eq, retries_eq, get_CI_of_absent env h]
    simp
  · rw [forbidOnly_eq, retries_eq, get_CI_of_present env s h]
    simp [hs]

theorem forbidOnly_retries_of_CI_witness :
    ((defaultExport envNoCI sampleDevices sampleConfig).forbidOnly = false ∧
      (defaultExport envNoCI sampleDevices sampleConfig).retries = 0) ∧
    ((defaultExport (envCI "true") sampleDevices sampleConfig).forbidOnly = true ∧
      (defaultExport (envCI "true") sampleDevices sampleConfig).retries = 1) :=
  ⟨(forbidOnly_retries_of_CI envNoCI sampleDevices sampleConfig).1 rfl,
   (forbidOnly_retries_of_CI (envCI "true") sampleDevices sampleConfig).2 "true"
      (by decide) (by decide)⟩

/-- C2, as stated, fails: with `CI` present and bound to the empty string the
configuration has `forbidOnly = false` and `retries = 0`, so presence of `CI`
is not equivalent to `forbidOnly = true` and `retries = 1`. -/
theorem CI_presence_toggle_refuted :
    envCI "" "CI" = some "" ∧
    (defaultExport (envCI "") sampleDevices sampleConfig).forbidOnly = false ∧
    (defaultExport (envCI "") sampleDevices sampleConfig).retries = 0 ∧
    ¬ (((defaultExport (envCI "") sampleDevices sampleConfig).forbidOnly = true ∧
        (defaultExport (envCI "") sampleDevices sampleConfig).retries = 1)
        ↔ (envCI "" "CI").isSome = true) := by
  decide

/-- C2, amended: `forbidOnly = true` and `retries = 1` exactly when `CI` is
present with a non-empty value; `forbidOnly = false` and `retries = 0` exactly
when `CI` is absent or bound to the empty string. -/
theorem forbidOnly_retries_iff_CI_nonempty (env : ProcessEnv) (devices : Devices)
    (config : Config) :
    (((defaultExport env devices config).forbidOnly = true ∧
      (defaultExport env devices config).retries = 1)
        ↔ ∃ s : String, env "CI" = some s ∧ s ≠ "") ∧
    (((defaultExport env devices config).forbidOnly = false ∧
      (defaultExport env devices config).retries = 0)
        ↔ (env "CI" = none ∨ env "CI" = some "")) := by
  rw [forbidOnly_eq, retries_eq]
  cases h : env "CI" with
  | none => simp [get_CI_of_absent env h]
  | some s =>
    rw [get_CI_of_present env s h]
    by_cases hs : s = "" <;> simp [hs]

/-- C3: whatever the environment and the input config, `workers = 1` and
`fullyParallel = false`. -/
theorem workers_fullyParallel_fixed (env : ProcessEnv) (devices : Devices) (config : Config) :
    (defaultExport env devices config).workers = 1 ∧
    (defaultExport env devices config).fullyParallel = false :=
  ⟨rfl, rfl⟩

/-- C4: `use.baseURL` is the input config's `baseUrl`, untransformed. -/
theorem use_baseURL_eq (env : ProcessEnv) (devices : Devices) (config : Config) :
    (defaultExport env devices config).use.baseURL = config.baseUrl :=
  rfl

/-- C5: `projects` has length exactly 1 and its only entry is named
`chromium`. -/
theorem projects_single_chromium (env : ProcessEnv) (devices : Devices) (config : Config) :
    (defaultExport env devices config).projects.length = 1 ∧
    ∀ p ∈ (defaultExport env devices config).projects, p.name = "chromium" := by
  refine ⟨rfl, fun p hp => ?_⟩
  simp only [defaultExport, defineConfig, List.mem_singleton] at hp
  rw [hp]

/-- C6: two constructions under environments with the same value (or the same
absence) of `CI`, and the same input config, give records equal in every
field. -/
theorem defaultExport_deterministic (env₁ env₂ : ProcessEnv) (devices : Devices)
    (config₁ config₂ : Config) (henv : env₁ "CI" = env₂ "CI") (hconfig : config₁ = config₂) :
    defaultExport env₁ devices config₁ = defaultExport env₂ devices config₂ := by
  subst hconfig
  simp only [defaultExport, ProcessEnv.get, henv]

theorem defaultExport_deterministic_witness :
    envCI "1" "HOME" ≠ envCIAndHome "HOME" ∧
    defaultExport (envCI "1") sampleDevices sampleConfig
      = defaultExport envCIAndHome sampleDevices sampleConfig :=
  ⟨by decide,
   defaultExport_deterministic (envCI "1") envCIAndHome sampleDevices sampleConfig
      sampleConfig (by decide) rfl⟩

/-- C7: `timeout`, `use.headless` and `use.slowMo` are the input config's
`browser.timeout`, `browser.headless` and `browser.slowMo`, unchanged. -/
theorem browser_settings_passthrough (env : ProcessEnv) (devices : Devices)
    (config : Config) :
    (defaultExport env devices config).timeout = config.browser.timeout ∧
    (defaultExport env devices config).use.headless = config.browser.headless ∧
    (defaultExport env devices config).use.slowMo = config.browser.slowMo :=
  ⟨rfl, rfl, rfl⟩

/-- C8: `reporter` is a sequence of exactly two entries: first
`./utils/ExtentReporter.js` with an options record of exactly the two fields
`outputDir` and `reportTitle`, taken from `config.reporter`; second `list`
with no options. -/
theorem reporter_entries (env : ProcessEnv) (devices : Devices) (config : Config) :
    (defaultExport env devices config).reporter.length = 2 ∧
    (defaultExport env devices config).reporter =
      [ { name := "./utils/ExtentReporter.js"
          options := some [("outputDir", config.reporter.outputDir),
                           ("reportTitle", config.reporter.reportTitle)] },
        { name := "list", options := none } ] :=
  ⟨rfl, rfl⟩

/-- C9: two environments and the same input config give configurations that
agree on every field other than `forbidOnly` and `retries`. -/
theorem env_frame (env₁ env₂ : ProcessEnv) (devices : Devices) (config : Config) :
    (defaultExport env₁ devices config).testDir
      = (defaultExport env₂ devices config).testDir ∧
    (defaultExport env₁ devices config).testMatch
      = (defaultExport env₂ devices config).testMatch ∧
    (defaultExport env₁ devices config).fullyParallel
      = (defaultExport env₂ devices config).fullyParallel ∧
    (defaultExport env₁ devices config).workers
      = (defaultExport env₂ devices config).workers ∧
    (defaultExport env₁ devices config).timeout
      = (defaultExport env₂ devices config).timeout ∧
    (defaultExport env₁ devices config).reporter
      = (defaultExport env₂ devices config).reporter ∧
    (defaultExport env₁ devices config).use
      = (defaultExport env₂ devices config).use ∧
    (defaultExport env₁ devices config).projects
      = (defaultExport env₂ devices config).projects ∧
    (defaultExport env₁ devices config).outputDir
      = (defaultExport env₂ devices config).outputDir :=
  ⟨rfl, rfl, rfl, rfl, rfl, rfl, rfl, rfl, rfl⟩

/-- C10: `retries` is 0 or 1, and `retries = 1` exactly when
`forbidOnly = true`. -/
theorem retries_coupled_with_forbidOnly (env : ProcessEnv) (devices : Devices)
    (config : Config) :
    ((defaultExport env devices config).retries = 0 ∨
      (defaultExport env devices config).retries = 1) ∧
    ((defaultExport env devices config).retries = 1
      ↔ (defaultExport env devices config).forbidOnly = true) := by
  rw [forbidOnly_eq, retries_eq]
  cases (env.get "CI").toBoolean <;> simp

end PlaywrightConfig
